import Mathlib

/-!
Cursor pagination in the go-client example, and the client generator entry point

A shallow embedding of `example/main.go` (`main`, `getAllControls`) and of
`generate/gen_client.go` (`main`).

Conventions of the embedding

* A Go pointer `*T` is an `Option T` (`none` is `nil`).
* A Go slice is a `GoSlice` (`none` is the `nil` slice).
* The generated GraphQL client is an external collaborator.  It is a
  deterministic state machine `Server σ`: one call of `client.GetControls`
  maps the client state and the request arguments to a response (a page or an
  error) and a new client state.  The arguments handed over by pointer
  (`&pageSize`, `where`, `orderBy`) are read by the client, not written.
* The `for { ... }` loop of `getAllControls` has no bound of its own, so the
  embedding runs it with fuel; a run that uses up its fuel has no result and
  carries the events produced so far.
* Every effect a program has on its surroundings is an event of its trace.
-/

namespace GoClient

/-! ## Go values -/

/-- Go `error` values: a plain error with a text, or the value `fmt.Errorf`
builds for a format holding one `%w` verb, which stores the formatted text and
the wrapped error. -/
inductive GoError where
  | errorString (s : String)
  | wrapError (msg : String) (err : GoError)
  deriving DecidableEq, Repr

/-- Method `Error()`. -/
def GoError.Error : GoError → String
  | .errorString s => s
  | .wrapError msg _ => msg

/-- Method `Unwrap()` (`errors.Unwrap`): `nil` for an error that wraps nothing. -/
def GoError.Unwrap : GoError → Option GoError
  | .errorString _ => none
  | .wrapError _ err => some err

/-- Call `fmt.Errorf(pre + "%w", err)` for a format made of literal text `pre`
followed by the verb `%w`. -/
def Errorf_w (pre : String) (err : GoError) : GoError :=
  .wrapError (pre ++ err.Error) err

/-- A Go slice: `none` is the `nil` slice. -/
abbrev GoSlice (α : Type) := Option (List α)

/-- The elements of a slice, in order. -/
def GoSlice.toList {α : Type} (s : GoSlice α) : List α := s.getD []

/-- Built-in `append(s, x)`. -/
def goAppend {α : Type} (s : GoSlice α) (x : α) : GoSlice α :=
  some (GoSlice.toList s ++ [x])

/-- Built-in `len(s)`. -/
def goLen {α : Type} (s : GoSlice α) : Nat := (GoSlice.toList s).length

/-! ## Data model of the collection query -/

/-- Modelled from the spec: the declaration of `graphclient.ControlWhereInput`
is missing; the two fields that `getAllControls` sets are kept, every other
field of the struct is left at its zero value by the source. -/
structure ControlWhereInput where
  ReferenceFramework : Option String
  SystemOwned : Option Bool
  deriving DecidableEq, Repr

/-- Modelled from the spec: the declaration of `graphclient.ControlOrderField`
is missing; `RefCode` is the constant the source names. -/
inductive ControlOrderField where
  | RefCode
  | other (name : String)
  deriving DecidableEq, Repr

/-- Modelled from the spec: the declaration of `graphclient.OrderDirection`
is missing (ascending or descending). -/
inductive OrderDirection where
  | Asc
  | Desc
  deriving DecidableEq, Repr

/-- Type `graphclient.ControlOrder`. -/
structure ControlOrder where
  Field : ControlOrderField
  Direction : OrderDirection
  deriving DecidableEq, Repr

/-- The arguments of one call
`client.GetControls(ctx, first, last, after, before, where, orderBy)`. -/
structure Request where
  first : Option Int
  last : Option Int
  after : Option String
  before : Option String
  where_ : Option ControlWhereInput
  orderBy : List (Option ControlOrder)
  deriving DecidableEq, Repr

/-- Modelled from the spec: the declaration of
`graphclient.GetControls_Controls_Edges_Node` is missing; these are the
fields `main` reads. -/
structure Node where
  RefCode : String
  Title : Option String
  Category : Option String
  Description : Option String
  deriving DecidableEq, Repr

/-- One edge of a page. -/
structure Edge where
  Node : Node
  deriving DecidableEq, Repr

/-- Field `PageInfo` of a page. -/
structure PageInfo where
  HasNextPage : Bool
  EndCursor : Option String
  deriving DecidableEq, Repr

/-- Field `Controls` of a successful response: one page. -/
structure Page where
  Edges : List Edge
  TotalCount : Int
  PageInfo : PageInfo
  deriving DecidableEq, Repr

/-- What one call of `client.GetControls` returns: a page (with a `nil`
error) or an error. -/
inductive Response where
  | ok (response : Page)
  | error (err : GoError)
  deriving DecidableEq, Repr

/-- The client as a state machine over client states `σ`. -/
abbrev Server (σ : Type) := σ → Request → Response × σ

/-! ## Events -/

/-- The effects of the example program. -/
inductive Event where
  /-- One call of `client.GetControls` with its arguments and what it returned. -/
  | call (req : Request) (resp : Response)
  /-- Text written to standard output. -/
  | stdout (s : String)
  /-- Call `openlane.New(openlane.WithAPIToken(token))`. -/
  | newClient (token : String)
  /-- Text written by the standard logger. -/
  | log (s : String)
  deriving DecidableEq, Repr

/-- The calls of `client.GetControls` in a trace, in order. -/
def calls : List Event → List (Request × Response)
  | [] => []
  | .call req resp :: es => (req, resp) :: calls es
  | _ :: es => calls es

/-- The requests issued in a trace, in order. -/
def requests (es : List Event) : List Request := (calls es).map Prod.fst

/-! ## `getAllControls` -/

/-- What `getAllControls` returns: the pair `(allControls, err)`. -/
structure Ret where
  controls : GoSlice Node
  err : Option GoError
  deriving DecidableEq, Repr

/-- A run of `getAllControls`: what it returned (`none` when the fuel ran out
before the loop ended) and the events it produced. -/
structure Run where
  result : Option Ret
  events : List Event
  deriving DecidableEq, Repr

/-- Local `pageSize`. -/
def pageSize : Int := 10

/-- Local `where`. -/
def whereInput : ControlWhereInput :=
  { ReferenceFramework := some "SOC 2", SystemOwned := some true }

/-- Local `orderBy`. -/
def orderBy : ControlOrder :=
  { Field := ControlOrderField.RefCode, Direction := OrderDirection.Asc }

/-- The arguments of the call in the loop body, for the current `after`. -/
def mkRequest (after : Option String) : Request :=
  { first := some pageSize, last := none, after := after, before := none,
    where_ := some whereInput, orderBy := [some orderBy] }

/-- The inner loop `for _, edge := range response.Controls.Edges`. -/
def collect (allControls : GoSlice Node) : List Edge → GoSlice Node
  | [] => allControls
  | edge :: rest => collect (goAppend allControls edge.Node) rest

/-- The progress line printed after each page. -/
def progressLine (edges : Nat) (total : Nat) (totalCount : Int) : String :=
  "Fetched page with " ++ toString edges ++ " controls (total so far: " ++
    toString total ++ " of " ++ toString totalCount ++ ")\n"

/-- The loop of `getAllControls`, from client state `st`, cursor `after` and
accumulator `allControls`. -/
def getAllControlsLoop {σ : Type} (client : Server σ) :
    Nat → σ → Option String → GoSlice Node → Run
  | 0, _, _, _ => { result := none, events := [] }
  | fuel + 1, st, after, allControls =>
    let req := mkRequest after
    match client st req with
    | (.error err, _) =>
      { result := some { controls := none,
                         err := some (Errorf_w "failed to fetch controls: " err) },
        events := [Event.call req (.error err)] }
    | (.ok response, st1) =>
      let allControls1 := collect allControls response.Edges
      let line := progressLine response.Edges.length (goLen allControls1) response.TotalCount
      if !response.PageInfo.HasNextPage then
        { result := some { controls := allControls1, err := none },
          events := [Event.call req (.ok response), Event.stdout line] }
      else
        let r := getAllControlsLoop client fuel st1 response.PageInfo.EndCursor allControls1
        { result := r.result,
          events := Event.call req (.ok response) :: Event.stdout line :: r.events }

/-- Function `getAllControls(client, ctx)`. -/
def getAllControls {σ : Type} (client : Server σ) (st : σ) (fuel : Nat) : Run :=
  getAllControlsLoop client fuel st none none

/-- The hypothesis "the endpoint answers the requests of one run with the pages
`ps`, one after the other, and then with `last`": from client state `st`, the
request carrying cursor `after` is answered by the first page of `ps`, the
request carrying that page's end cursor by the second, and so on; the request
after the last page of `ps` is answered by `last`. -/
def Answers {σ : Type} (client : Server σ) : σ → Option String → List Page → Response → Prop
  | st, after, [], last => (client st (mkRequest after)).1 = last
  | st, after, p :: ps, last =>
    (client st (mkRequest after)).1 = Response.ok p ∧
      Answers client (client st (mkRequest after)).2 p.PageInfo.EndCursor ps last

/-- The records of a sequence of pages: page order, then the order within a page. -/
def recordsOf (ps : List Page) : List Node :=
  ps.flatMap (fun p => p.Edges.map Edge.Node)

/-! ## `main` of the example program -/

/-- How a process ends: with an exit status, by a run-time panic, or not within
the fuel of the run. -/
inductive Termination where
  | exit (code : Nat)
  | panicked
  | running
  deriving DecidableEq, Repr

/-- A run of `main`: its trace and how it ended. -/
structure Outcome where
  events : List Event
  status : Termination
  deriving DecidableEq, Repr

/-- Call `os.Getenv(key)`: the empty string for a variable that is not set. -/
def Getenv (env : String → Option String) (key : String) : String :=
  (env key).getD ""

/-- The loop `for i, control := range controls` of `main`, from index `i`.
Reading through a `nil` `Title` or `Category` is a run-time panic, raised
while the arguments of the `Printf` call are evaluated. -/
def display : Nat → List Node → Outcome
  | _, [] => { events := [], status := Termination.exit 0 }
  | i, control :: rest =>
    match control.Title with
    | none => { events := [], status := Termination.panicked }
    | some title =>
      let l1 := Event.stdout
        (toString (i + 1) ++ ". [" ++ control.RefCode ++ "] " ++ title ++ "\n")
      match control.Category with
      | none => { events := [l1], status := Termination.panicked }
      | some category =>
        let l2 := Event.stdout ("   Category: " ++ category ++ "\n")
        let l3 := match control.Description with
          | some d => [Event.stdout ("   Description: " ++ d ++ "\n")]
          | none => []
        let r := display (i + 1) rest
        { events := l1 :: l2 :: (l3 ++ Event.stdout "\n" :: r.events), status := r.status }

/-- Function `main` of `example/main.go`.  `env` is the environment, `New` is
`openlane.New` applied to the token option (it returns a client and an error),
`client` answers the calls made through that client.  `log.Fatal` and
`log.Fatalf` of the standard library write the message and call `os.Exit(1)`. -/
def main {σ : Type} (env : String → Option String) (New : String → σ × Option GoError)
    (client : Server σ) (fuel : Nat) : Outcome :=
  let apiToken := Getenv env "OPENLANE_API_TOKEN"
  if apiToken = "" then
    { events := [Event.log "OPENLANE_API_TOKEN environment variable is required"],
      status := Termination.exit 1 }
  else
    match New apiToken with
    | (st, _err) =>
      let r := getAllControls client st fuel
      match r.result with
      | none => { events := Event.newClient apiToken :: r.events, status := Termination.running }
      | some ret =>
        match ret.err with
        | some err =>
          { events := Event.newClient apiToken :: (r.events ++
              [Event.log ("Error fetching controls: " ++ err.Error)]),
            status := Termination.exit 1 }
        | none =>
          let d := display 0 (GoSlice.toList ret.controls)
          { events := Event.newClient apiToken :: (r.events ++
              Event.stdout ("Total controls fetched: " ++ toString (goLen ret.controls) ++ "\n\n")
                :: d.events),
            status := d.status }

/-- Two consecutive calls of one run: the earlier one returned a page that
announces a next page, and the later one carries the arguments of the loop body
for that page's end cursor. -/
def Linked (a b : Request × Response) : Prop :=
  ∃ p, a.2 = Response.ok p ∧ p.PageInfo.HasNextPage = true ∧
    b.1 = mkRequest p.PageInfo.EndCursor

/-- A cursor that is neither `nil` nor the empty string. -/
def cursorPresent (c : Option String) : Prop := ∃ s, c = some s ∧ s ≠ ""

/-! ## Sample endpoints -/

/-- A record with the given reference code. -/
def sampleNode (code : String) : Node :=
  { RefCode := code, Title := some "Title", Category := some "Security", Description := none }

/-- A page of the records with the given reference codes. -/
def samplePage (codes : List String) (more : Bool) (cursor : Option String) : Page :=
  { Edges := codes.map (fun c => { Node := sampleNode c }),
    TotalCount := 13,
    PageInfo := { HasNextPage := more, EndCursor := cursor } }

/-- First page of the two-page scenario: 10 records, more to come, end cursor `c1`. -/
def page1 : Page :=
  samplePage ["CC1.1", "CC1.2", "CC1.3", "CC1.4", "CC1.5", "CC2.1", "CC2.2", "CC2.3", "CC3.1",
    "CC3.2"] true (some "c1")

/-- Second page of the two-page scenario: 3 records, the last page. -/
def page2 : Page := samplePage ["CC3.3", "CC3.4", "CC4.1"] false none

/-- An endpoint that is a function of the request alone: the request without a
cursor gets `page1`, the request with cursor `c1` gets `page2`, any other
request is refused. -/
def twoPages : Server Unit := fun _ req =>
  if req.after = none then (Response.ok page1, ())
  else if req.after = some "c1" then (Response.ok page2, ())
  else (Response.error (GoError.errorString "unknown cursor"), ())

/-- An endpoint that answers the request without a cursor with `page1` and
fails on every other request. -/
def thenFails : Server Unit := fun _ req =>
  if req.after = none then (Response.ok page1, ())
  else (Response.error (GoError.errorString "connection reset"), ())

/-- An endpoint that fails on every request. -/
def alwaysFails : Server Unit := fun _ _ =>
  (Response.error (GoError.errorString "boom"), ())

/-- An endpoint whose first page announces a next page and carries no end
cursor; its second page is the last.  The client state counts the calls. -/
def noCursor : Server Nat := fun n _ =>
  if n = 0 then (Response.ok (samplePage ["CC1.1"] true none), 1)
  else (Response.ok (samplePage ["CC1.2"] false none), n + 1)

/-- An endpoint with one empty page. -/
def emptyPage : Server Unit := fun _ _ =>
  (Response.ok { Edges := [], TotalCount := 0,
                 PageInfo := { HasNextPage := false, EndCursor := none } }, ())

end GoClient

/-! ## `main` of the generator -/

namespace GenClient

open GoClient (GoError)

/-- Levels of the zerolog events the generator writes. -/
inductive Level where
  | error
  | fatal
  deriving DecidableEq, Repr

/-- The effects of the generator program. -/
inductive Event where
  /-- Call `config.LoadConfig(path)`. -/
  | loadConfig (path : String)
  /-- Call `generator.Generate(ctx, cfg)`. -/
  | generate
  /-- One zerolog event sent with `Msg`. -/
  | zerolog (level : Level) (err : GoError) (msg : String)
  deriving DecidableEq, Repr

/-- A run of the generator: its trace and its exit status. -/
structure Outcome where
  events : List Event
  exit : Nat
  deriving DecidableEq, Repr

/-- Constant `graphapiGenDir`. -/
def graphapiGenDir : String := "./"

/-- Returning from `main`: the process exits with status 0. -/
def returns : Outcome := { events := [], exit := 0 }

/-- Statement `os.Exit(code)`; `k` is the rest of the program, which does not run. -/
def osExit (code : Nat) (_k : Outcome) : Outcome := { events := [], exit := code }

/-- Statement `log.Fatal().Err(err).Msg(msg)` of zerolog; `k` is the rest of
the program.  `Fatal` starts an event at fatal level whose `Msg` method, once
the event is written, calls `os.Exit(1)`: the rest of the program does not
run. -/
def zerologFatal (err : GoError) (msg : String) (k : Outcome) : Outcome :=
  { events := Event.zerolog Level.fatal err msg :: (osExit 1 k).events,
    exit := (osExit 1 k).exit }

/-- Statement `log.Error().Err(err).Msg(msg)` of zerolog; `k` is the rest of
the program, which runs after the event is written. -/
def zerologError (err : GoError) (msg : String) (k : Outcome) : Outcome :=
  { events := Event.zerolog Level.error err msg :: k.events, exit := k.exit }

/-- Function `main` of `generate/gen_client.go`.  `LoadConfig` and `Generate`
are the two library calls; each returns a Go result with a possibly `nil`
error. -/
def main {Cfg : Type} (LoadConfig : String → Option Cfg × Option GoError)
    (Generate : Option Cfg → Option GoError) : Outcome :=
  match LoadConfig (graphapiGenDir ++ ".gqlgenc.yml") with
  | (cfg, err) =>
    let rest : Outcome :=
      match Generate cfg with
      | some err1 =>
        let k := zerologError err1 "Failed to generate gqlgenc client" returns
        { events := Event.generate :: k.events, exit := k.exit }
      | none => { events := Event.generate :: returns.events, exit := returns.exit }
    let body : Outcome :=
      match err with
      | some err0 => zerologFatal err0 "Failed to load config" (osExit 2 rest)
      | none => rest
    { events := Event.loadConfig (graphapiGenDir ++ ".gqlgenc.yml") :: body.events,
      exit := body.exit }

end GenClient

/-! ## Properties of `getAllControls` -/

namespace GoClient

theorem toList_collect (acc : GoSlice Node) (es : List Edge) :
    GoSlice.toList (collect acc es) = GoSlice.toList acc ++ es.map Edge.Node := by
  induction es generalizing acc with
  | nil => simp [collect]
  | cons e rest ih =>
    rw [collect, ih, List.map_cons]
    simp [goAppend, GoSlice.toList]

theorem recordsOf_cons (p : Page) (ps : List Page) :
    recordsOf (p :: ps) = p.Edges.map Edge.Node ++ recordsOf ps := by
  simp [recordsOf]

/-- The loop on a successful last page. -/
theorem loop_last {σ : Type} (client : Server σ) (fuel : Nat) (st : σ) (after : Option String)
    (acc : GoSlice Node) (p : Page) (st1 : σ)
    (h : client st (mkRequest after) = (Response.ok p, st1))
    (hp : p.PageInfo.HasNextPage = false) :
    getAllControlsLoop client (fuel + 1) st after acc =
      { result := some { controls := collect acc p.Edges, err := none },
        events := [Event.call (mkRequest after) (Response.ok p),
          Event.stdout (progressLine p.Edges.length (goLen (collect acc p.Edges)) p.TotalCount)] } := by
  simp [getAllControlsLoop, h, hp]

/-- The loop on a successful page that announces a next page. -/
theorem loop_more {σ : Type} (client : Server σ) (fuel : Nat) (st : σ) (after : Option String)
    (acc : GoSlice Node) (p : Page) (st1 : σ)
    (h : client st (mkRequest after) = (Response.ok p, st1))
    (hp : p.PageInfo.HasNextPage = true) :
    getAllControlsLoop client (fuel + 1) st after acc =
      { result := (getAllControlsLoop client fuel st1 p.PageInfo.EndCursor
          (collect acc p.Edges)).result,
        events := Event.call (mkRequest after) (Response.ok p) ::
          Event.stdout (progressLine p.Edges.length (goLen (collect acc p.Edges)) p.TotalCount) ::
          (getAllControlsLoop client fuel st1 p.PageInfo.EndCursor
            (collect acc p.Edges)).events } := by
  simp [getAllControlsLoop, h, hp]

/-- The loop on a failed request. -/
theorem loop_error {σ : Type} (client : Server σ) (fuel : Nat) (st : σ) (after : Option String)
    (acc : GoSlice Node) (e : GoError) (st1 : σ)
    (h : client st (mkRequest after) = (Response.error e, st1)) :
    getAllControlsLoop client (fuel + 1) st after acc =
      { result := some { controls := none,
                         err := some (Errorf_w "failed to fetch controls: " e) },
        events := [Event.call (mkRequest after) (Response.error e)] } := by
  simp [getAllControlsLoop, h]

/-- The loop over pages `ps` that all announce a next page, then a last page. -/
theorem loop_all_pages {σ : Type} (client : Server σ) (ps : List Page) (last : Page) :
    ∀ (fuel : Nat) (st : σ) (after : Option String) (acc : GoSlice Node),
      Answers client st after ps (Response.ok last) →
      (∀ p ∈ ps, p.PageInfo.HasNextPage = true) →
      last.PageInfo.HasNextPage = false →
      ps.length + 1 ≤ fuel →
      ∃ s, (getAllControlsLoop client fuel st after acc).result =
            some { controls := s, err := none } ∧
        GoSlice.toList s = GoSlice.toList acc ++ recordsOf (ps ++ [last]) ∧
        (calls (getAllControlsLoop client fuel st after acc).events).map Prod.snd =
          (ps ++ [last]).map Response.ok := by
  induction ps with
  | nil =>
    intro fuel st after acc hs _ hl hf
    obtain ⟨f, rfl⟩ : ∃ f, fuel = f + 1 := ⟨fuel - 1, by simp at hf; omega⟩
    have h : client st (mkRequest after) = (Response.ok last, (client st (mkRequest after)).2) :=
      Prod.ext hs rfl
    rw [loop_last client f st after acc last _ h hl]
    exact ⟨_, rfl, by simp [toList_collect, recordsOf], by simp [calls]⟩
  | cons p ps ih =>
    intro fuel st after acc hs hm hl hf
    obtain ⟨f, rfl⟩ : ∃ f, fuel = f + 1 := ⟨fuel - 1, by simp at hf; omega⟩
    obtain ⟨h1, h2⟩ := hs
    have h : client st (mkRequest after) = (Response.ok p, (client st (mkRequest after)).2) :=
      Prod.ext h1 rfl
    rw [loop_more client f st after acc p _ h (hm p (by simp))]
    obtain ⟨s, hr, hl2, hc⟩ := ih f _ p.PageInfo.EndCursor (collect acc p.Edges) h2
      (fun q hq => hm q (by simp [hq])) hl (by simp at hf ⊢; omega)
    refine ⟨s, hr, ?_, ?_⟩
    · rw [hl2, toList_collect, List.cons_append, recordsOf_cons, List.append_assoc]
    · simp [calls, hc]

/-- The loop over pages `ps` that all announce a next page, then a failed request. -/
theorem loop_pages_then_error {σ : Type} (client : Server σ) (ps : List Page) (e : GoError) :
    ∀ (fuel : Nat) (st : σ) (after : Option String) (acc : GoSlice Node),
      Answers client st after ps (Response.error e) →
      (∀ p ∈ ps, p.PageInfo.HasNextPage = true) →
      ps.length + 1 ≤ fuel →
      (getAllControlsLoop client fuel st after acc).result =
          some { controls := none, err := some (Errorf_w "failed to fetch controls: " e) } ∧
        (calls (getAllControlsLoop client fuel st after acc).events).map Prod.snd =
          ps.map Response.ok ++ [Response.error e] := by
  induction ps with
  | nil =>
    intro fuel st after acc hs _ hf
    obtain ⟨f, rfl⟩ : ∃ f, fuel = f + 1 := ⟨fuel - 1, by simp at hf; omega⟩
    have h : client st (mkRequest after) = (Response.error e, (client st (mkRequest after)).2) :=
      Prod.ext hs rfl
    rw [loop_error client f st after acc e _ h]
    exact ⟨rfl, by simp [calls]⟩
  | cons p ps ih =>
    intro fuel st after acc hs hm hf
    obtain ⟨f, rfl⟩ : ∃ f, fuel = f + 1 := ⟨fuel - 1, by simp at hf; omega⟩
    obtain ⟨h1, h2⟩ := hs
    have h : client st (mkRequest after) = (Response.ok p, (client st (mkRequest after)).2) :=
      Prod.ext h1 rfl
    rw [loop_more client f st after acc p _ h (hm p (by simp))]
    obtain ⟨hr, hc⟩ := ih f _ p.PageInfo.EndCursor (collect acc p.Edges) h2
      (fun q hq => hm q (by simp [hq])) (by simp at hf ⊢; omega)
    exact ⟨hr, by simp [calls, hc]⟩

/-- Consecutive elements of a chain are related, by index. -/
theorem chain_index {α : Type} {R : α → α → Prop} :
    ∀ (l : List α), List.Chain' R l →
      ∀ (k : Nat) (a b : α), l[k]? = some a → l[k + 1]? = some b → R a b := by
  intro l
  induction l with
  | nil => intro _ k a b h; simp at h
  | cons x l ih =>
    intro hc k a b ha hb
    rw [List.chain'_cons'] at hc
    cases k with
    | zero =>
      simp at ha hb
      subst ha
      apply hc.1
      cases l with
      | nil => simp at hb
      | cons y l => simp at hb; simp [hb]
    | succ k =>
      simp at ha hb
      exact ih hc.2 k a b ha (by simpa using hb)

/-- The calls of the loop: the first carries the current cursor, and each
later one is linked to the one before it. -/
theorem calls_loop_chain {σ : Type} (client : Server σ) :
    ∀ (fuel : Nat) (st : σ) (after : Option String) (acc : GoSlice Node),
      List.Chain' Linked (calls (getAllControlsLoop client fuel st after acc).events) ∧
      ∀ c ∈ (calls (getAllControlsLoop client fuel st after acc).events).head?,
        c.1 = mkRequest after := by
  intro fuel
  induction fuel with
  | zero => intro st after acc; simp [getAllControlsLoop, calls]
  | succ f ih =>
    intro st after acc
    rcases h : client st (mkRequest after) with ⟨resp, st1⟩
    cases resp with
    | error e =>
      rw [loop_error client f st after acc e st1 h]
      simp [calls]
    | ok p =>
      cases hp : p.PageInfo.HasNextPage with
      | false =>
        rw [loop_last client f st after acc p st1 h hp]
        simp [calls]
      | true =>
        rw [loop_more client f st after acc p st1 h hp]
        obtain ⟨h1, h2⟩ := ih st1 p.PageInfo.EndCursor (collect acc p.Edges)
        simp only [calls]
        refine ⟨?_, by simp⟩
        rw [List.chain'_cons']
        exact ⟨fun y hy => ⟨p, rfl, hp, h2 y hy⟩, h1⟩

/-- Every request of the loop carries the arguments of the loop body. -/
theorem requests_loop {σ : Type} (client : Server σ) :
    ∀ (fuel : Nat) (st : σ) (after : Option String) (acc : GoSlice Node),
      ∀ r ∈ requests (getAllControlsLoop client fuel st after acc).events,
        r = mkRequest r.after := by
  intro fuel
  induction fuel with
  | zero => intro st after acc; simp [getAllControlsLoop, calls, requests]
  | succ f ih =>
    intro st after acc
    rcases h : client st (mkRequest after) with ⟨resp, st1⟩
    cases resp with
    | error e =>
      rw [loop_error client f st after acc e st1 h]
      simp [calls, requests, mkRequest]
    | ok p =>
      cases hp : p.PageInfo.HasNextPage with
      | false =>
        rw [loop_last client f st after acc p st1 h hp]
        simp [calls, requests, mkRequest]
      | true =>
        rw [loop_more client f st after acc p st1 h hp]
        have h1 := ih st1 p.PageInfo.EndCursor (collect acc p.Edges)
        intro r hr
        simp only [calls, requests, List.map_cons, List.mem_cons] at hr
        rcases hr with hr | hr
        · subst hr; simp [mkRequest]
        · exact h1 r hr

/-- A failed call ends the loop with the wrapped error and the `nil` slice. -/
theorem loop_failed_call {σ : Type} (client : Server σ) :
    ∀ (fuel : Nat) (st : σ) (after : Option String) (acc : GoSlice Node)
      (req : Request) (e : GoError),
      (req, Response.error e) ∈ calls (getAllControlsLoop client fuel st after acc).events →
      (getAllControlsLoop client fuel st after acc).result =
        some { controls := none, err := some (Errorf_w "failed to fetch controls: " e) } := by
  intro fuel
  induction fuel with
  | zero => intro st after acc req e h; simp [getAllControlsLoop, calls] at h
  | succ f ih =>
    intro st after acc req e hmem
    rcases h : client st (mkRequest after) with ⟨resp, st1⟩
    cases resp with
    | error e1 =>
      rw [loop_error client f st after acc e1 st1 h] at hmem ⊢
      simp [calls] at hmem
      rw [hmem.2]
    | ok p =>
      cases hp : p.PageInfo.HasNextPage with
      | false =>
        rw [loop_last client f st after acc p st1 h hp] at hmem
        simp [calls] at hmem
      | true =>
        rw [loop_more client f st after acc p st1 h hp] at hmem ⊢
        simp [calls] at hmem
        exact ih st1 p.PageInfo.EndCursor (collect acc p.Edges) req e hmem

end GoClient

/-! ## The claims about `getAllControls` -/

namespace GoClient

/-- C1: when the endpoint answers the requests of a run with `N - 1` pages that
report `HasNextPage = true` and then with a page that reports
`HasNextPage = false`, `getAllControls` (given fuel for `N` iterations) issues
exactly `N` requests, which are answered by these pages in order, and returns a
`nil` error together with a slice holding the concatenation of the pages' edge
nodes, in page order and then in the order within each page. -/
theorem getAllControls_returns_all_pages {σ : Type} (client : Server σ) (st : σ)
    (ps : List Page) (last : Page) (fuel : Nat)
    (hserve : Answers client st none ps (Response.ok last))
    (hmore : ∀ p ∈ ps, p.PageInfo.HasNextPage = true)
    (hlast : last.PageInfo.HasNextPage = false)
    (hfuel : ps.length + 1 ≤ fuel) :
    (requests (getAllControls client st fuel).events).length = ps.length + 1 ∧
    (calls (getAllControls client st fuel).events).map Prod.snd =
      (ps ++ [last]).map Response.ok ∧
    ∃ s, (getAllControls client st fuel).result = some { controls := s, err := none } ∧
      GoSlice.toList s = recordsOf (ps ++ [last]) := by
  obtain ⟨s, hr, hl, hc⟩ := loop_all_pages client ps last fuel st none none hserve hmore hlast hfuel
  refine ⟨?_, hc, s, hr, ?_⟩
  · have := congrArg List.length hc
    simpa [requests, getAllControls] using this
  · simpa [GoSlice.toList] using hl

/-- Witness of C1: page size 10, the first page holds 10 records, announces a
next page and ends at cursor `c1`, the second page holds 3 records and is the
last: 2 requests, 13 records, those of the first page before those of the
second. -/
theorem getAllControls_returns_all_pages_witness :
    (requests (getAllControls twoPages () 2).events).length = 1 + 1 ∧
    (calls (getAllControls twoPages () 2).events).map Prod.snd =
      ([page1] ++ [page2]).map Response.ok ∧
    ∃ s, (getAllControls twoPages () 2).result = some { controls := s, err := none } ∧
      GoSlice.toList s = recordsOf ([page1] ++ [page2]) :=
  getAllControls_returns_all_pages twoPages () [page1] page2 2 ⟨rfl, rfl⟩ (by decide)
    (by decide) (by decide)

/-- C2: when the endpoint answers the first `k - 1` requests of a run with pages
that report `HasNextPage = true` and the `k`-th request with an error,
`getAllControls` (given fuel for `k` iterations) returns a non-nil error and the
`nil` slice, and the failed request is the last of the `k` requests it issues. -/
theorem getAllControls_fails_fast {σ : Type} (client : Server σ) (st : σ)
    (ps : List Page) (e : GoError) (fuel : Nat)
    (hserve : Answers client st none ps (Response.error e))
    (hmore : ∀ p ∈ ps, p.PageInfo.HasNextPage = true)
    (hfuel : ps.length + 1 ≤ fuel) :
    (∃ err, (getAllControls client st fuel).result =
        some { controls := none, err := some err }) ∧
    (requests (getAllControls client st fuel).events).length = ps.length + 1 ∧
    (calls (getAllControls client st fuel).events).map Prod.snd =
      ps.map Response.ok ++ [Response.error e] := by
  obtain ⟨hr, hc⟩ := loop_pages_then_error client ps e fuel st none none hserve hmore hfuel
  refine ⟨⟨_, hr⟩, ?_, hc⟩
  have := congrArg List.length hc
  simpa [requests, getAllControls] using this

/-- Witness of C2: the first page arrives, the second request fails. -/
theorem getAllControls_fails_fast_witness :
    (∃ err, (getAllControls thenFails () 5).result =
        some { controls := none, err := some err }) ∧
    (requests (getAllControls thenFails () 5).events).length = 1 + 1 ∧
    (calls (getAllControls thenFails () 5).events).map Prod.snd =
      [page1].map Response.ok ++ [Response.error (GoError.errorString "connection reset")] :=
  getAllControls_fails_fast thenFails () [page1] (GoError.errorString "connection reset") 5
    ⟨rfl, rfl⟩ (by decide) (by decide)

/-- With fuel for one iteration, the loop issues a first request, and it
carries the current cursor. -/
theorem requests_loop_head {σ : Type} (client : Server σ) (fuel : Nat) (st : σ)
    (after : Option String) (acc : GoSlice Node) :
    (requests (getAllControlsLoop client (fuel + 1) st after acc).events).head? =
      some (mkRequest after) := by
  rcases h : client st (mkRequest after) with ⟨resp, st1⟩
  cases resp with
  | error e => rw [loop_error client fuel st after acc e st1 h]; simp [calls, requests]
  | ok p =>
    cases hp : p.PageInfo.HasNextPage with
    | false => rw [loop_last client fuel st after acc p st1 h hp]; simp [calls, requests]
    | true => rw [loop_more client fuel st after acc p st1 h hp]; simp [calls, requests]

/-- C3: in every run of `getAllControls`, against every endpoint and for every
number of iterations, the first request carries no cursor (`after = nil`), and
whenever request `k + 1` is issued, request `k` returned a page and the `after`
cursor of request `k + 1` is the `PageInfo.EndCursor` of that page. -/
theorem getAllControls_cursor_chain {σ : Type} (client : Server σ) (st : σ) (fuel : Nat) :
    (0 < fuel →
      ∃ r, (requests (getAllControls client st fuel).events).head? = some r ∧
        r.after = none) ∧
    ∀ (k : Nat) (a b : Request × Response),
      (calls (getAllControls client st fuel).events)[k]? = some a →
      (calls (getAllControls client st fuel).events)[k + 1]? = some b →
      ∃ p, a.2 = Response.ok p ∧ b.1.after = p.PageInfo.EndCursor := by
  constructor
  · intro hf
    obtain ⟨f, rfl⟩ : ∃ f, fuel = f + 1 := ⟨fuel - 1, by omega⟩
    exact ⟨mkRequest none, requests_loop_head client f st none none, rfl⟩
  · intro k a b ha hb
    obtain ⟨p, h1, _, h3⟩ :=
      chain_index _ (calls_loop_chain client fuel st none none).1 k a b ha hb
    exact ⟨p, h1, by rw [h3]; rfl⟩

/-- Witness of C3: in the two-page scenario the second request carries the
end cursor `c1` of the first page. -/
theorem getAllControls_cursor_chain_witness :
    ∃ p, (mkRequest none, Response.ok page1).2 = Response.ok p ∧
      (mkRequest (some "c1"), Response.ok page2).1.after = p.PageInfo.EndCursor :=
  (getAllControls_cursor_chain twoPages () 2).2 0 (mkRequest none, Response.ok page1)
    (mkRequest (some "c1"), Response.ok page2) (by decide) (by decide)

/-- C4: in every run of `getAllControls`, against every endpoint and for every
number of iterations, every request issued carries page size 10, the filter
`ReferenceFramework = "SOC 2"` and `SystemOwned = true`, the ordering by
`RefCode` ascending, and no `last` and no `before` argument: the cursor `after`
is the only argument in which two requests of a run can differ. -/
theorem getAllControls_fixed_arguments {σ : Type} (client : Server σ) (st : σ) (fuel : Nat)
    (r : Request) (hr : r ∈ requests (getAllControls client st fuel).events) :
    r = { first := some 10, last := none, after := r.after, before := none,
          where_ := some { ReferenceFramework := some "SOC 2", SystemOwned := some true },
          orderBy := [some { Field := ControlOrderField.RefCode,
                             Direction := OrderDirection.Asc }] } :=
  requests_loop client fuel st none none r hr

/-- Witness of C4: the second request of the two-page scenario. -/
theorem getAllControls_fixed_arguments_witness :
    mkRequest (some "c1") =
      { first := some 10, last := none, after := (mkRequest (some "c1")).after, before := none,
        where_ := some { ReferenceFramework := some "SOC 2", SystemOwned := some true },
        orderBy := [some { Field := ControlOrderField.RefCode,
                           Direction := OrderDirection.Asc }] } :=
  getAllControls_fixed_arguments twoPages () 2 (mkRequest (some "c1")) (by decide)

/-- C5, as stated, fails: an endpoint whose first page reports
`HasNextPage = true` with a `nil` end cursor makes `getAllControls` issue a
second request whose cursor is `nil`. -/
theorem getAllControls_nil_cursor_passed_on :
    (requests (getAllControls noCursor 0 2).events).map Request.after = [none, none] := by
  decide

/-- C5, amended: in every run of `getAllControls`, if every page that reports
`HasNextPage = true` carries an end cursor that is neither `nil` nor the empty
string, then the cursor of every request after the first is neither `nil` nor
the empty string. -/
theorem getAllControls_cursor_present {σ : Type} (client : Server σ) (st : σ) (fuel : Nat)
    (hpages : ∀ (req : Request) (p : Page),
      (req, Response.ok p) ∈ calls (getAllControls client st fuel).events →
      p.PageInfo.HasNextPage = true → cursorPresent p.PageInfo.EndCursor)
    (k : Nat) (b : Request × Response)
    (hb : (calls (getAllControls client st fuel).events)[k + 1]? = some b) :
    cursorPresent b.1.after := by
  have hlt : k + 1 < (calls (getAllControls client st fuel).events).length := by
    by_contra hge
    rw [List.getElem?_eq_none (by omega)] at hb
    cases hb
  have ha : (calls (getAllControls client st fuel).events)[k]? =
      some ((calls (getAllControls client st fuel).events)[k]) :=
    List.getElem?_eq_getElem (by omega)
  obtain ⟨p, h1, h2, h3⟩ :=
    chain_index _ (calls_loop_chain client fuel st none none).1 k _ b ha hb
  have hmem : ((calls (getAllControls client st fuel).events)[k].1, Response.ok p) ∈
      calls (getAllControls client st fuel).events := by
    rw [← h1]
    exact List.getElem_mem _
  have := hpages _ p hmem h2
  rw [h3]
  exact this

/-- Witness of C5, amended: the two-page scenario, whose first page ends at
cursor `c1`. -/
theorem getAllControls_cursor_present_witness :
    cursorPresent (mkRequest (some "c1"), Response.ok page2).1.after :=
  getAllControls_cursor_present twoPages () 2
    (by
      intro req p hmem hp
      have h : p = page1 ∨ p = page2 := by
        have : (req, Response.ok p) ∈
            [(mkRequest none, Response.ok page1), (mkRequest (some "c1"), Response.ok page2)] :=
          hmem
        simp at this
        rcases this with h | h
        · exact Or.inl h.2
        · exact Or.inr h.2
      rcases h with rfl | rfl
      · exact ⟨"c1", rfl, by decide⟩
      · exact absurd hp (by decide))
    0 (mkRequest (some "c1"), Response.ok page2) (by decide)

/-- C6, as stated, fails: the error returned for a failed page request reads
`failed to fetch controls: ` followed by the text of the cause; the words
`failed to fetch page` occur nowhere in it. -/
theorem getAllControls_error_text_counterexample :
    (getAllControls alwaysFails () 1).result =
      some { controls := none,
             err := some (GoError.wrapError "failed to fetch controls: boom"
               (GoError.errorString "boom")) } ∧
    ¬ ("failed to fetch page".toList <:+: "failed to fetch controls: boom".toList) := by
  constructor <;> decide

/-- C6, amended: whenever a page request made by `getAllControls` fails with an
error `e`, the error that `getAllControls` returns wraps `e` (unwrapping it
yields `e`) and its text is the context message `failed to fetch controls: `
followed by the text of `e`. -/
theorem getAllControls_wraps_cause {σ : Type} (client : Server σ) (st : σ) (fuel : Nat)
    (req : Request) (e : GoError)
    (hfail : (req, Response.error e) ∈ calls (getAllControls client st fuel).events) :
    ∃ err, (getAllControls client st fuel).result =
        some { controls := none, err := some err } ∧
      err.Unwrap = some e ∧
      err.Error = "failed to fetch controls: " ++ e.Error :=
  ⟨_, loop_failed_call client fuel st none none req e hfail, rfl, rfl⟩

/-- Witness of C6, amended: the second request of a run fails. -/
theorem getAllControls_wraps_cause_witness :
    ∃ err, (getAllControls thenFails () 3).result =
        some { controls := none, err := some err } ∧
      err.Unwrap = some (GoError.errorString "connection reset") ∧
      err.Error = "failed to fetch controls: " ++
        (GoError.errorString "connection reset").Error :=
  getAllControls_wraps_cause thenFails () 3 (mkRequest (some "c1"))
    (GoError.errorString "connection reset") (by decide)

end GoClient

/-! ## The claims about `main` of the example program -/

namespace GoClient

/-- C7: when the environment variable `OPENLANE_API_TOKEN` is unset or empty,
`main` writes the fatal message and exits with status 1 before the client is
constructed: its trace holds that message alone, hence no construction of a
client and no page request, whatever the endpoint would answer. -/
theorem main_requires_token {σ : Type} (env : String → Option String)
    (New : String → σ × Option GoError) (client : Server σ) (fuel : Nat)
    (htoken : env "OPENLANE_API_TOKEN" = none ∨ env "OPENLANE_API_TOKEN" = some "") :
    main env New client fuel =
      { events := [Event.log "OPENLANE_API_TOKEN environment variable is required"],
        status := Termination.exit 1 } ∧
    requests (main env New client fuel).events = [] ∧
    ∀ token, Event.newClient token ∉ (main env New client fuel).events := by
  have h : Getenv env "OPENLANE_API_TOKEN" = "" := by
    rcases htoken with h | h <;> simp [Getenv, h]
  have hm : main env New client fuel =
      { events := [Event.log "OPENLANE_API_TOKEN environment variable is required"],
        status := Termination.exit 1 } := by
    simp [main, h]
  rw [hm]
  exact ⟨rfl, rfl, by simp⟩

/-- Witness of C7: an empty environment, and an endpoint that would serve two
pages. -/
theorem main_requires_token_witness :
    main (fun _ => none) (fun _ => ((), none)) twoPages 5 =
      { events := [Event.log "OPENLANE_API_TOKEN environment variable is required"],
        status := Termination.exit 1 } ∧
    requests (main (fun _ => none) (fun _ => ((), none)) twoPages 5).events = [] ∧
    ∀ token, Event.newClient token ∉
      (main (fun _ => none) (fun _ => ((), none)) twoPages 5).events :=
  main_requires_token (fun _ => none) (fun _ => ((), none)) twoPages 5 (Or.inl rfl)

/-- The calls of a trace made of two parts. -/
theorem calls_append (es fs : List Event) : calls (es ++ fs) = calls es ++ calls fs := by
  induction es with
  | nil => rfl
  | cons ev es ih => cases ev <;> simp [calls, ih]

/-- With a token set and fuel for one iteration, `main` issues a first request
through the client that `New` returned, whatever error `New` returned with it. -/
theorem main_first_request {σ : Type} (token : String) (htoken : token ≠ "")
    (New : String → σ × Option GoError) (client : Server σ) (fuel : Nat) :
    (requests (main (fun _ => some token) New client (fuel + 1)).events).head? =
      some (mkRequest none) := by
  have hne : Getenv (fun _ => some token) "OPENLANE_API_TOKEN" ≠ "" := by
    simpa [Getenv] using htoken
  have hh := requests_loop_head client fuel (New token).1 none none
  have hget : Getenv (fun _ => some token) "OPENLANE_API_TOKEN" = token := rfl
  have key : ∀ (rest : List Event),
      (requests (Event.newClient token ::
        ((getAllControls client (New token).1 (fuel + 1)).events ++ rest))).head? =
        some (mkRequest none) := by
    intro rest
    have hc : calls (Event.newClient token ::
        ((getAllControls client (New token).1 (fuel + 1)).events ++ rest)) =
        calls (getAllControls client (New token).1 (fuel + 1)).events ++ calls rest := by
      rw [calls, calls_append]
      intro req resp h
      cases h
    unfold requests at hh ⊢
    rw [hc, List.map_append]
    unfold getAllControls
    cases hm : List.map Prod.fst
        (calls (getAllControlsLoop client (fuel + 1) (New token).1 none none).events) with
    | nil => rw [hm] at hh; simp at hh
    | cons x xs => rw [hm] at hh; simpa using hh
  unfold main
  rw [if_neg hne, hget]
  rcases hN : New token with ⟨st, err⟩
  rw [hN] at key
  simp only
  cases hres : (getAllControls client st (fuel + 1)).result with
  | none => simpa using key []
  | some ret =>
    cases herr : ret.err with
    | some err1 => simpa [herr] using key _
    | none => simpa [herr] using key _

/-- C10 does not hold of the code: the error that `openlane.New` returns is
never read.  With a token set and `New` returning any error `e` with a client,
`main` goes on to call `getAllControls`, which issues its first request through
that client, whatever the endpoint answers; and when the endpoint serves one
empty page, `main` ends with status 0 and a trace that does not depend on
`e`. -/
theorem main_drops_New_error (e : GoError) :
    (∀ (σ : Type) (st : σ) (client : Server σ) (fuel : Nat),
      (requests (main (fun _ => some "tok") (fun _ => (st, some e)) client
        (fuel + 1)).events).head? = some (mkRequest none)) ∧
    main (fun _ => some "tok") (fun _ => ((), some e)) emptyPage 1 =
      { events := [Event.newClient "tok",
          Event.call (mkRequest none)
            (Response.ok { Edges := [], TotalCount := 0,
                           PageInfo := { HasNextPage := false, EndCursor := none } }),
          Event.stdout "Fetched page with 0 controls (total so far: 0 of 0)\n",
          Event.stdout "Total controls fetched: 0\n\n"],
        status := Termination.exit 0 } :=
  ⟨fun _ st client fuel => main_first_request "tok" (by decide) (fun _ => (st, some e)) client fuel,
    rfl⟩

end GoClient

/-! ## The claims about `main` of the generator -/

namespace GenClient

open GoClient (GoError)

/-- C8 does not hold of the code: when loading `./.gqlgenc.yml` fails with
error `err`, `generator.Generate` is not invoked, but the exit status is 1, not
2: sending the fatal event ends the process, and the statement `os.Exit(2)`
after it is never reached. -/
theorem main_load_failure_exits_1 {Cfg : Type} (cfg : Option Cfg) (err : GoError)
    (Generate : Option Cfg → Option GoError) :
    main (fun _ => (cfg, some err)) Generate =
      { events := [Event.loadConfig "./.gqlgenc.yml",
          Event.zerolog Level.fatal err "Failed to load config"],
        exit := 1 } := by
  simp [main, zerologFatal, osExit, graphapiGenDir]

/-- C9: when `./.gqlgenc.yml` loads and `generator.Generate` returns an error,
the trace of `main` is the load, the generation and one event at error level
carrying that error, and `main` returns: the exit status is 0, as it is when
the generation succeeds. -/
theorem main_generation_failure_logged {Cfg : Type}
    (LoadConfig : String → Option Cfg × Option GoError)
    (Generate : Option Cfg → Option GoError) (cfg : Option Cfg) (err : GoError)
    (hload : LoadConfig "./.gqlgenc.yml" = (cfg, none))
    (hgen : Generate cfg = some err) :
    main LoadConfig Generate =
      { events := [Event.loadConfig "./.gqlgenc.yml", Event.generate,
          Event.zerolog Level.error err "Failed to generate gqlgenc client"],
        exit := 0 } ∧
    ∀ (Generate1 : Option Cfg → Option GoError), Generate1 cfg = none →
      main LoadConfig Generate1 =
        { events := [Event.loadConfig "./.gqlgenc.yml", Event.generate], exit := 0 } := by
  have hp : graphapiGenDir ++ ".gqlgenc.yml" = "./.gqlgenc.yml" := by decide
  constructor
  · simp [main, hp, hload, hgen, zerologError, returns]
  · intro G hG
    simp [main, hp, hload, hG, returns]

/-- Witness of C9: a configuration that loads and a generation that fails. -/
theorem main_generation_failure_logged_witness :
    main (fun _ => (some (), none)) (fun _ => some (GoError.errorString "no schema")) =
      { events := [Event.loadConfig "./.gqlgenc.yml", Event.generate,
          Event.zerolog Level.error (GoError.errorString "no schema")
            "Failed to generate gqlgenc client"],
        exit := 0 } ∧
    ∀ (Generate1 : Option Unit → Option GoError), Generate1 (some ()) = none →
      main (fun _ => (some (), none)) Generate1 =
        { events := [Event.loadConfig "./.gqlgenc.yml", Event.generate], exit := 0 } :=
  main_generation_failure_logged (fun _ => (some (), none))
    (fun _ => some (GoError.errorString "no schema")) (some ())
    (GoError.errorString "no schema") rfl rfl

end GenClient
